import Mathlib

/-
  Verification of the message-normalization and session-state core of the
  computer-use demo front end (computer_use_demo/app.py).

  The embedding below translates the data model and the operations of the
  source file: the conversation store (a plain list held under the messages
  key of the session state), the render projection inside process_input
  (lines 212-238), the streaming callback render function
  (lines 136-162), session bootstrap setup_state (lines 42-68) with its
  helpers load_from_storage (lines 102-112) and the default-model reset
  (lines 71-72), the api-key guard of sampling_loop_wrapper (lines 241-244),
  and decode_base64_image (lines 166-177).

  Python dictionary lookups that can raise KeyError, list indexing that can
  raise IndexError, and decoding steps that can raise are modelled with
  Option: none is the raised exception. Python truthiness of optional
  strings (None and the empty string are falsy) is modelled explicitly.
-/

namespace ComputerUseDemo

/-- The source sub-dict of an image item in a tool-result dict:
    an absent data key is modelled as none (lookup raises KeyError). -/
structure ImageSource where
  data : Option String
  deriving DecidableEq

/-- One element of the content list inside a tool-result dict.
    Absent keys are modelled as none. -/
structure InnerItem where
  type : Option String
  source : Option ImageSource
  deriving DecidableEq

/-- A plain-dict content block, the shape the agent loop stores for tool
    results. The content key may be absent. -/
structure DictBlock where
  content : Option (List InnerItem)
  deriving DecidableEq

/-- The content-block variants that can sit in a message of the store, as the
    render loop of process_input distinguishes them by isinstance checks:
    TextBlock, BetaTextBlock, BetaToolUseBlock, a plain dict, a ToolResult
    object (fields output, error, base64_image), and any other shape.
    A ToolUse input dict is represented by its printed (str) form. -/
inductive ContentBlock where
  | textBlock (text : String)
  | betaTextBlock (text : String)
  | betaToolUseBlock (name : String) (input : String)
  | toolResultObj (output : Option String) (error : Option String)
      (base64Image : Option String)
  | dictBlock (d : DictBlock)
  | other
  deriving DecidableEq

/-- One entry of the conversation store: a dict with a role and a content
    list, exactly as process_input appends and reads them. -/
structure Message where
  role : String
  content : List ContentBlock
  deriving DecidableEq

/-- What a display cell can hold: a string, or a gradio image built from a
    file path. -/
inductive Renderable where
  | text (s : String)
  | image (path : String)
  deriving DecidableEq

/-- A display pair (left utterance, right utterance) as appended to res in
    process_input. -/
abbrev Pair := Option Renderable × Option Renderable

/-- The user turn that process_input appends (lines 184-189): role user with
    a single TextBlock holding the raw input. -/
def userTurn (user_input : String) : Message :=
  { role := "user", content := [ContentBlock.textBlock user_input] }

/-- The append performed on the store (state at key messages is a plain
    Python list; list.append never validates and never fails). -/
def storeAppend (msgs : List Message) (turn : Message) : List Message :=
  msgs ++ [turn]

/-- The user-input append of process_input: storeAppend of the user turn. -/
def appendUserTurn (user_input : String) (msgs : List Message) : List Message :=
  storeAppend msgs (userTurn user_input)

/-- Rendering of one store message inside the per-message try of
    process_input (lines 213-236). The first component is the display pair
    the message contributes (none: either an exception was caught by the
    except and the message skipped, or the message fell to the final else
    which only prints). The second component lists the base64 payloads
    passed to decode_base64_image while handling the message. The decode
    argument stands for decode_base64_image: its result is the file path
    handed to gr.Image, none when decoding raises.
    Branches, in source order:
    TextBlock yields (text, None); BetaTextBlock yields (None, text);
    BetaToolUseBlock yields (None, Tool Use line); a dict whose
    content[0][type] is the string image has its source data decoded and
    yields (None, image); everything else is printed and contributes
    nothing. Every KeyError or IndexError raised while evaluating the
    dict condition chain, and every decode failure, is caught by the
    except and skips the message. -/
def renderMsg (decode : String → Option String) (msg : Message) :
    Option Pair × List String :=
  match msg.content with
  | [] => (none, [])
  | b :: _ =>
    match b with
    | .textBlock t => (some (some (.text t), none), [])
    | .betaTextBlock t => (some (none, some (.text t)), [])
    | .betaToolUseBlock n i =>
        (some (none, some (.text ("Tool Use: " ++ n ++ "\nInput: " ++ i))), [])
    | .dictBlock d =>
        match d.content with
        | none => (none, [])
        | some [] => (none, [])
        | some (item :: _) =>
          match item.type with
          | none => (none, [])
          | some ty =>
            if ty = "image" then
              match item.source with
              | none => (none, [])
              | some src =>
                match src.data with
                | none => (none, [])
                | some payload =>
                  match decode payload with
                  | none => (none, [payload])
                  | some path => (some (none, some (.image path)), [payload])
            else
              (none, [])
    | .toolResultObj _ _ _ => (none, [])
    | .other => (none, [])

/-- The full render projection of process_input: the res list accumulated
    over the store, one optional pair per message. -/
def renderStore (decode : String → Option String) (msgs : List Message) :
    List Pair :=
  msgs.filterMap (fun m => (renderMsg decode m).1)

/-- All base64 payloads handed to decode_base64_image during one projection
    of the store, in order. -/
def decodedPayloads (decode : String → Option String) (msgs : List Message) :
    List String :=
  (msgs.map (fun m => (renderMsg decode m).2)).flatten

/-!  The streaming callback (lines 136-162), wired as the output callback of
     the sampling loop with sender fixed to the assistant. -/

/-- The message values the callback render function receives (its type
    annotation): a raw string, a TextBlock or BetaTextBlock, a ToolUseBlock
    or BetaToolUseBlock, or a ToolResult object. A CLIResult is a ToolResult
    with the same three fields and is recognized by the same class-name
    check, so it is covered by the toolResult constructor. -/
inductive CallbackMessage where
  | str (s : String)
  | textBlock (text : String)
  | betaTextBlock (text : String)
  | toolUseBlock (name : String) (input : String)
  | betaToolUseBlock (name : String) (input : String)
  | toolResult (output : Option String) (error : Option String)
      (base64Image : Option String)
  deriving DecidableEq

/-- Python truthiness of an optional string: None and the empty string are
    falsy. -/
def strTruthy : Option String → Bool
  | none => false
  | some s => s ≠ ""

/-- The is_tool_result test of lines 137-141: an isinstance check on
    ToolResult together with class-name checks for ToolResult and CLIResult. -/
def isToolResult : CallbackMessage → Bool
  | .toolResult _ _ _ => true
  | _ => false

/-- hasattr of the output attribute. A ToolResult object always carries the
    output, error and base64_image attributes: lines 151-155 read them
    unconditionally, which would raise AttributeError otherwise. The other
    variants have no output attribute. -/
def hasattrOutput : CallbackMessage → Bool
  | .toolResult _ _ _ => true
  | _ => false

/-- hasattr of the error attribute; same reasoning as for output. -/
def hasattrError : CallbackMessage → Bool
  | .toolResult _ _ _ => true
  | _ => false

/-- Python truthiness of the whole message object, used by the guard at
    line 142. Strings are truthy when non-empty; the block objects are
    plain truthy; a ToolResult is truthy when any of its fields is set
    (the dataclass of the tools module defines bool as any-field-set; the
    module is not under src, and no theorem below depends on the value for
    an all-empty ToolResult). -/
def CallbackMessage.truthy : CallbackMessage → Bool
  | .str s => s ≠ ""
  | .textBlock _ => true
  | .betaTextBlock _ => true
  | .toolUseBlock _ _ => true
  | .betaToolUseBlock _ _ => true
  | .toolResult o e i => o.isSome || e.isSome || i.isSome

/-- What the callback render function can return: a string, or the raw bytes
    of base64-decoding the image payload (represented by the payload it
    decodes). none is the bare return / falling off the function. -/
inductive SinkRenderable where
  | text (s : String)
  | imageBytes (base64Payload : String)
  deriving DecidableEq

/-- The callback render function (lines 136-162), for the tool-result and
    block variants. Guard (lines 142-148): return nothing when the message
    is falsy, or when it is a tool result, hide_images is set and it has
    neither an error nor an output attribute (the two hasattr tests, which
    a ToolResult never makes true). Then order of lines 149-162: a tool
    result yields its output when truthy, else the Error: prefix of a
    truthy error, else the decoded image bytes when the image is truthy and
    hide_images is not set, else nothing. Text blocks yield their text,
    tool-use blocks the Tool Use line, and anything else (a raw string) is
    returned as is. -/
def render_message (hide_images : Bool) (message : CallbackMessage) :
    Option SinkRenderable :=
  if ¬ message.truthy ∨
      (isToolResult message ∧ hide_images ∧
        ¬ hasattrError message ∧ ¬ hasattrOutput message) then
    none
  else
    match message with
    | .toolResult o e i =>
        if strTruthy o then some (.text (o.getD ""))
        else if strTruthy e then some (.text ("Error: " ++ e.getD ""))
        else if strTruthy i ∧ ¬ hide_images then some (.imageBytes (i.getD ""))
        else none
    | .textBlock t => some (.text t)
    | .betaTextBlock t => some (.text t)
    | .toolUseBlock n i => some (.text ("Tool Use: " ++ n ++ "\nInput: " ++ i))
    | .betaToolUseBlock n i =>
        some (.text ("Tool Use: " ++ n ++ "\nInput: " ++ i))
    | .str s => some (.text s)

/-!  Session bootstrap (lines 42-72), its storage helper (lines 102-112),
     and the api-key guard of sampling_loop_wrapper (lines 241-244). -/

/-- The ambient world the bootstrap reads: the storage directory (raw file
    contents by filename, none for a missing or unreadable file) and the
    process environment. -/
structure Env where
  storage : String → Option String
  osenv : String → Option String

/-- Python str.strip with no argument: drop whitespace from both ends. -/
def pyStrip (s : String) : String :=
  String.mk (((s.data.dropWhile Char.isWhitespace).reverse.dropWhile
    Char.isWhitespace).reverse)

/-- load_from_storage (lines 102-112): read the file when it exists, strip
    it, and return the result only when non-empty; any failure or a missing
    file yields None. -/
def load_from_storage (env : Env) (filename : String) : Option String :=
  match env.storage filename with
  | none => none
  | some raw =>
    if pyStrip raw ≠ "" then some (pyStrip raw) else none

/-- os.getenv with a default. -/
def getenv (env : Env) (key dflt : String) : String :=
  (env.osenv key).getD dflt

/-- The session state dict. A key that is absent from the dict is none; the
    bootstrap only ever fills absent keys. The archives (responses, tools)
    are modelled as association lists since only their presence and their
    initial emptiness matter here. -/
structure AppState where
  messages : Option (List Message)
  api_key : Option String
  provider : Option String
  provider_radio : Option String
  model : Option String
  auth_validated : Option Bool
  responses : Option (List (String × String))
  tools : Option (List (String × String))
  only_n_most_recent_images : Option Nat
  custom_system_prompt : Option String
  hide_images : Option Bool
  deriving DecidableEq

/-- The fresh state dict created at line 260. -/
def emptyState : AppState :=
  { messages := none, api_key := none, provider := none, provider_radio := none
  , model := none, auth_validated := none, responses := none, tools := none
  , only_n_most_recent_images := none, custom_system_prompt := none
  , hide_images := none }

/-- Modelled from the spec: PROVIDER_TO_DEFAULT_MODEL_NAME is imported from
    the loop module, which is not under src. The spec fixes the session
    default model for the anthropic provider (the value also appears as the
    UI default at line 273); the other two providers of the enum carry their
    own defaults. A provider string outside the enum has no entry, so
    indexing the mapping raises KeyError, modelled as none. -/
def PROVIDER_TO_DEFAULT_MODEL_NAME : String → Option String
  | "anthropic" => some "claude-3-5-sonnet-20241022"
  | "bedrock" => some "anthropic.claude-3-5-sonnet-20241022-v2:0"
  | "vertex" => some "claude-3-5-sonnet-v2@20241022"
  | _ => none

/-- The assignment of line 47: the stored key (truthy whenever
    load_from_storage returns it), else the environment variable with an
    empty default. -/
def resolveApiKeyRaw (env : Env) : String :=
  match load_from_storage env "api_key" with
  | some s => s
  | none => getenv env "ANTHROPIC_API_KEY" ""

/-- Lines 47-49: the value of line 47, and the placeholder when that is
    still falsy. -/
def resolveApiKey (env : Env) : String :=
  if resolveApiKeyRaw env = "" then "YOUR_API_KEY_HERE" else resolveApiKeyRaw env

/-- The provider resolution of line 52: the API_PROVIDER environment
    variable with default anthropic, and the anthropic member of the
    provider enum (whose string value is anthropic) when that is falsy. -/
def resolveProvider (env : Env) : String :=
  if getenv env "API_PROVIDER" "anthropic" = "" then "anthropic"
  else getenv env "API_PROVIDER" "anthropic"

/-- Line 43-44: fill the messages key with an empty list when absent. -/
def fillMessages (st : AppState) : AppState :=
  if st.messages.isSome then st else { st with messages := some [] }

/-- Lines 45-50: fill the api_key key when absent. -/
def fillApiKey (env : Env) (st : AppState) : AppState :=
  if st.api_key.isSome then st
  else { st with api_key := some (resolveApiKey env) }

/-- Lines 51-52: fill the provider key when absent. -/
def fillProvider (env : Env) (st : AppState) : AppState :=
  if st.provider.isSome then st
  else { st with provider := some (resolveProvider env) }

/-- Lines 53-54: fill provider_radio from the provider key; reading the
    provider key raises KeyError when it is absent. -/
def fillProviderRadio (st : AppState) : Option AppState :=
  if st.provider_radio.isSome then some st
  else
    match st.provider with
    | none => none
    | some p => some { st with provider_radio := some p }

/-- The default-model reset of lines 71-72: index the provider-to-model
    mapping at the provider key; either lookup raises KeyError when
    undefined. -/
def reset_model (st : AppState) : Option AppState :=
  match st.provider with
  | none => none
  | some p =>
    match PROVIDER_TO_DEFAULT_MODEL_NAME p with
    | none => none
    | some m => some { st with model := some m }

/-- Lines 55-56: fill the model key via reset_model when absent. -/
def fillModel (st : AppState) : Option AppState :=
  if st.model.isSome then some st else reset_model st

/-- Lines 57-58. -/
def fillAuthValidated (st : AppState) : AppState :=
  if st.auth_validated.isSome then st
  else { st with auth_validated := some false }

/-- Lines 59-60. -/
def fillResponses (st : AppState) : AppState :=
  if st.responses.isSome then st else { st with responses := some [] }

/-- Lines 61-62. -/
def fillTools (st : AppState) : AppState :=
  if st.tools.isSome then st else { st with tools := some [] }

/-- Lines 63-64. -/
def fillOnlyN (st : AppState) : AppState :=
  if st.only_n_most_recent_images.isSome then st
  else { st with only_n_most_recent_images := some 10 }

/-- Lines 65-66: the stored system prompt, else the empty string; the
    environment is never consulted for this field. -/
def fillCustomPrompt (env : Env) (st : AppState) : AppState :=
  if st.custom_system_prompt.isSome then st
  else
    { st with
        custom_system_prompt := some ((load_from_storage env "system_prompt").getD "") }

/-- Lines 67-68. -/
def fillHideImages (st : AppState) : AppState :=
  if st.hide_images.isSome then st else { st with hide_images := some false }

/-- setup_state (lines 42-68): the sequential fills in source order; a
    KeyError escaping one of them (only possible while deriving
    provider_radio or the default model) aborts the call, modelled as
    none. -/
def setup_state (env : Env) (st : AppState) : Option AppState :=
  let st1 := fillProvider env (fillApiKey env (fillMessages st))
  match fillProviderRadio st1 with
  | none => none
  | some st2 =>
    match fillModel st2 with
    | none => none
    | some st3 =>
      some (fillHideImages (fillCustomPrompt env
        (fillOnlyN (fillTools (fillResponses (fillAuthValidated st3))))))

/-- The guard of sampling_loop_wrapper (lines 243-244): state.get on the
    api_key key is falsy when the key is absent or holds the empty string;
    the wrapper then raises ValueError before calling the loop. -/
def api_key_missing (st : AppState) : Bool :=
  match st.api_key with
  | none => true
  | some s => s = ""

/-!  decode_base64_image (lines 166-177). -/

/-- The observable outcome of one run of decode_base64_image: the base64
    data actually decoded, the file name image.save wrote to (line 175),
    and the file name the function returns (line 177). -/
structure DecodeRun where
  payload : String
  savedFile : String
  returned : String
  deriving DecidableEq

/-- decode_base64_image (lines 166-177). The argument now gives the strftime
    rendering of the k-th datetime.now() call of this run: the function
    reads the clock once to name the file it saves and once more, after the
    save, to build the returned name. When the string carries the
    data:image prefix, everything after the first comma is the payload;
    the index into the split raises when no comma is present. Failures of
    the base64 or image decoding itself raise and are the concern of the
    caller; the data flow modelled here is the prefix strip and the two
    file names. -/
def decode_base64_image (now : Nat → String) (base64_str : String) :
    Option DecodeRun :=
  let stripped :=
    if "data:image".data.isPrefixOf base64_str.data then
      (base64_str.splitOn ",").get? 1
    else some base64_str
  match stripped with
  | none => none
  | some s =>
    some { payload := s, savedFile := now 0 ++ ".png", returned := now 1 ++ ".png" }

/-- The render projection stage of process_input read off the state: the
    loop iterates state at the messages key (KeyError, modelled none, when
    the key is absent — unreachable in process_input, which bootstraps
    first). Note that the projection never reads the hide_images key. -/
def process_input_render (decode : String → Option String) (st : AppState) :
    Option (List Pair) :=
  match st.messages with
  | none => none
  | some msgs => some (renderStore decode msgs)

/-- The conditions under which the body of the per-message try in
    process_input raises a structural-access error (IndexError on an empty
    content list, KeyError on a missing dict key) or a decode failure, all
    caught by the except clause. The match skeleton mirrors renderMsg. -/
def raisesAccessError (decode : String → Option String) (msg : Message) :
    Bool :=
  match msg.content with
  | [] => true
  | b :: _ =>
    match b with
    | .dictBlock d =>
      match d.content with
      | none => true
      | some [] => true
      | some (item :: _) =>
        match item.type with
        | none => true
        | some ty =>
          if ty = "image" then
            match item.source with
            | none => true
            | some src =>
              match src.data with
              | none => true
              | some payload => (decode payload).isNone
          else false
    | _ => false

/-- The resolution chain exactly as the spec words it: the persisted value
    first, then the environment, then a hard-coded placeholder. Declared
    only to compare the per-field resolution of the code against this
    claimed chain. -/
def specResolutionChain (stored envVal : Option String)
    (placeholder : String) : String :=
  match stored with
  | some s => s
  | none =>
    match envVal with
    | some v => v
    | none => placeholder

/-- An environment variable read through Python truthiness: an unset
    variable and an empty value both count as absent. -/
def truthyEnvVar (env : Env) (key : String) : Option String :=
  match env.osenv key with
  | none => none
  | some v => if v = "" then none else some v

/-!  Concrete inputs used to evaluate the definitions. -/

/-- A decoder that always fails (never reached in the runs below that use
    it, or standing for a decode error). -/
def decodeNone : String → Option String := fun _ => none

/-- A concrete clock crossing a second boundary between the two
    datetime.now() calls of one decode_base64_image run. -/
def clock0 : Nat → String := fun k =>
  if k = 0 then "2024-01-01_00-00-00" else "2024-01-01_00-00-01"

/-- decode_base64_image under clock0, as the decoder of the projection: the
    projection hands the returned name to gr.Image. -/
def decodeClock0 : String → Option String := fun p =>
  (decode_base64_image clock0 p).map DecodeRun.returned

/-- A tool turn whose first block is a ToolResult object with output 42. -/
def toolResultTurn42 : Message :=
  { role := "tool", content := [ContentBlock.toolResultObj (some "42") none none] }

/-- A tool turn whose first block is a ToolResult object with error boom. -/
def toolResultTurnBoom : Message :=
  { role := "tool", content := [ContentBlock.toolResultObj none (some "boom") none] }

/-- A turn with an empty content sequence. -/
def emptyContentTurn : Message := { role := "tool", content := [] }

/-- An image item of a tool-result dict with a concrete payload. -/
def imageItem : InnerItem :=
  { type := some "image", source := some { data := some "B64DATA" } }

/-- A turn whose first block is an image-bearing tool-result dict. -/
def imageDictTurn : Message :=
  { role := "user", content := [ContentBlock.dictBlock { content := some [imageItem] }] }

/-- An image tool-result dict whose source key is missing: evaluating the
    access chain raises KeyError. -/
def malformedImageTurn : Message :=
  { role := "user"
  , content := [ContentBlock.dictBlock
      { content := some [{ type := some "image", source := none }] }] }

/-- A state whose hide-images toggle is on and whose store holds one
    image-bearing tool-result dict. -/
def hiddenState : AppState :=
  { emptyState with hide_images := some true, messages := some [imageDictTurn] }

/-- A world with no stored files and an empty process environment. -/
def env0 : Env := { storage := fun _ => none, osenv := fun _ => none }

/-- The state setup_state builds from the fresh dict under env0. -/
def state0 : AppState :=
  { messages := some [], api_key := some "YOUR_API_KEY_HERE"
  , provider := some "anthropic", provider_radio := some "anthropic"
  , model := some "claude-3-5-sonnet-20241022", auth_validated := some false
  , responses := some [], tools := some []
  , only_n_most_recent_images := some 10, custom_system_prompt := some ""
  , hide_images := some false }

/-- A world whose storage holds a provider file with value vertex while the
    environment sets API_PROVIDER to bedrock: the claimed chain would pick
    the stored value first. -/
def envC8 : Env :=
  { storage := fun k => if k = "provider" then some "vertex" else none
  , osenv := fun k => if k = "API_PROVIDER" then some "bedrock" else none }

/-!  Infrastructure for the bootstrap theorems: a state extends into another
     when every key already present keeps its value, and a state is fully
     set when every key of the bootstrap is present. -/

/-- No key present in the first state is reset or overwritten in the
    second. -/
structure PreservesPresent (st st' : AppState) : Prop where
  messages : ∀ v, st.messages = some v → st'.messages = some v
  api_key : ∀ v, st.api_key = some v → st'.api_key = some v
  provider : ∀ v, st.provider = some v → st'.provider = some v
  provider_radio : ∀ v, st.provider_radio = some v → st'.provider_radio = some v
  model : ∀ v, st.model = some v → st'.model = some v
  auth_validated : ∀ v, st.auth_validated = some v → st'.auth_validated = some v
  responses : ∀ v, st.responses = some v → st'.responses = some v
  tools : ∀ v, st.tools = some v → st'.tools = some v
  only_n_most_recent_images : ∀ v, st.only_n_most_recent_images = some v →
    st'.only_n_most_recent_images = some v
  custom_system_prompt : ∀ v, st.custom_system_prompt = some v →
    st'.custom_system_prompt = some v
  hide_images : ∀ v, st.hide_images = some v → st'.hide_images = some v

theorem preservesPresent_refl (st : AppState) : PreservesPresent st st :=
  ⟨fun _ h => h, fun _ h => h, fun _ h => h, fun _ h => h, fun _ h => h,
   fun _ h => h, fun _ h => h, fun _ h => h, fun _ h => h, fun _ h => h,
   fun _ h => h⟩

theorem preservesPresent_trans {a b c : AppState} (h1 : PreservesPresent a b)
    (h2 : PreservesPresent b c) : PreservesPresent a c :=
  ⟨fun v hv => h2.messages v (h1.messages v hv),
   fun v hv => h2.api_key v (h1.api_key v hv),
   fun v hv => h2.provider v (h1.provider v hv),
   fun v hv => h2.provider_radio v (h1.provider_radio v hv),
   fun v hv => h2.model v (h1.model v hv),
   fun v hv => h2.auth_validated v (h1.auth_validated v hv),
   fun v hv => h2.responses v (h1.responses v hv),
   fun v hv => h2.tools v (h1.tools v hv),
   fun v hv => h2.only_n_most_recent_images v (h1.only_n_most_recent_images v hv),
   fun v hv => h2.custom_system_prompt v (h1.custom_system_prompt v hv),
   fun v hv => h2.hide_images v (h1.hide_images v hv)⟩

/-- Every key of the bootstrap is present. -/
structure AllSet (st : AppState) : Prop where
  messages : st.messages.isSome
  api_key : st.api_key.isSome
  provider : st.provider.isSome
  provider_radio : st.provider_radio.isSome
  model : st.model.isSome
  auth_validated : st.auth_validated.isSome
  responses : st.responses.isSome
  tools : st.tools.isSome
  only_n_most_recent_images : st.only_n_most_recent_images.isSome
  custom_system_prompt : st.custom_system_prompt.isSome
  hide_images : st.hide_images.isSome

theorem isSome_mono_messages {a b : AppState} (e : PreservesPresent a b)
    (h : a.messages.isSome) : b.messages.isSome := by
  obtain ⟨v, hv⟩ := Option.isSome_iff_exists.mp h
  rw [e.messages v hv]; rfl

theorem isSome_mono_api_key {a b : AppState} (e : PreservesPresent a b)
    (h : a.api_key.isSome) : b.api_key.isSome := by
  obtain ⟨v, hv⟩ := Option.isSome_iff_exists.mp h
  rw [e.api_key v hv]; rfl

theorem isSome_mono_provider {a b : AppState} (e : PreservesPresent a b)
    (h : a.provider.isSome) : b.provider.isSome := by
  obtain ⟨v, hv⟩ := Option.isSome_iff_exists.mp h
  rw [e.provider v hv]; rfl

theorem isSome_mono_provider_radio {a b : AppState} (e : PreservesPresent a b)
    (h : a.provider_radio.isSome) : b.provider_radio.isSome := by
  obtain ⟨v, hv⟩ := Option.isSome_iff_exists.mp h
  rw [e.provider_radio v hv]; rfl

theorem isSome_mono_model {a b : AppState} (e : PreservesPresent a b)
    (h : a.model.isSome) : b.model.isSome := by
  obtain ⟨v, hv⟩ := Option.isSome_iff_exists.mp h
  rw [e.model v hv]; rfl

theorem isSome_mono_auth_validated {a b : AppState} (e : PreservesPresent a b)
    (h : a.auth_validated.isSome) : b.auth_validated.isSome := by
  obtain ⟨v, hv⟩ := Option.isSome_iff_exists.mp h
  rw [e.auth_validated v hv]; rfl

theorem isSome_mono_responses {a b : AppState} (e : PreservesPresent a b)
    (h : a.responses.isSome) : b.responses.isSome := by
  obtain ⟨v, hv⟩ := Option.isSome_iff_exists.mp h
  rw [e.responses v hv]; rfl

theorem isSome_mono_tools {a b : AppState} (e : PreservesPresent a b)
    (h : a.tools.isSome) : b.tools.isSome := by
  obtain ⟨v, hv⟩ := Option.isSome_iff_exists.mp h
  rw [e.tools v hv]; rfl

theorem isSome_mono_only_n {a b : AppState} (e : PreservesPresent a b)
    (h : a.only_n_most_recent_images.isSome) :
    b.only_n_most_recent_images.isSome := by
  obtain ⟨v, hv⟩ := Option.isSome_iff_exists.mp h
  rw [e.only_n_most_recent_images v hv]; rfl

theorem isSome_mono_custom_prompt {a b : AppState} (e : PreservesPresent a b)
    (h : a.custom_system_prompt.isSome) : b.custom_system_prompt.isSome := by
  obtain ⟨v, hv⟩ := Option.isSome_iff_exists.mp h
  rw [e.custom_system_prompt v hv]; rfl

theorem isSome_mono_hide_images {a b : AppState} (e : PreservesPresent a b)
    (h : a.hide_images.isSome) : b.hide_images.isSome := by
  obtain ⟨v, hv⟩ := Option.isSome_iff_exists.mp h
  rw [e.hide_images v hv]; rfl

theorem preserves_fillMessages (st : AppState) :
    PreservesPresent st (fillMessages st) := by
  unfold fillMessages
  split_ifs with hc
  · exact preservesPresent_refl st
  · exact ⟨fun v hv => absurd (by simp [hv]) hc, fun _ h => h, fun _ h => h,
      fun _ h => h, fun _ h => h, fun _ h => h, fun _ h => h, fun _ h => h,
      fun _ h => h, fun _ h => h, fun _ h => h⟩

theorem preserves_fillApiKey (env : Env) (st : AppState) :
    PreservesPresent st (fillApiKey env st) := by
  unfold fillApiKey
  split_ifs with hc
  · exact preservesPresent_refl st
  · exact ⟨fun _ h => h, fun v hv => absurd (by simp [hv]) hc, fun _ h => h,
      fun _ h => h, fun _ h => h, fun _ h => h, fun _ h => h, fun _ h => h,
      fun _ h => h, fun _ h => h, fun _ h => h⟩

theorem preserves_fillProvider (env : Env) (st : AppState) :
    PreservesPresent st (fillProvider env st) := by
  unfold fillProvider
  split_ifs with hc
  · exact preservesPresent_refl st
  · exact ⟨fun _ h => h, fun _ h => h, fun v hv => absurd (by simp [hv]) hc,
      fun _ h => h, fun _ h => h, fun _ h => h, fun _ h => h, fun _ h => h,
      fun _ h => h, fun _ h => h, fun _ h => h⟩

theorem preserves_fillProviderRadio {st st' : AppState}
    (h : fillProviderRadio st = some st') : PreservesPresent st st' := by
  unfold fillProviderRadio at h
  split_ifs at h with hc
  · injection h with h; subst h; exact preservesPresent_refl st
  · rcases hp : st.provider with _ | p <;> rw [hp] at h <;> simp at h
    subst h
    exact ⟨fun _ h => h, fun _ h => h, fun v hv => by rw [hp] at hv; exact hv,
      fun v hv => absurd (by simp [hv]) hc, fun _ h => h, fun _ h => h,
      fun _ h => h, fun _ h => h, fun _ h => h, fun _ h => h, fun _ h => h⟩

theorem preserves_fillModel {st st' : AppState}
    (h : fillModel st = some st') : PreservesPresent st st' := by
  unfold fillModel reset_model at h
  split_ifs at h with hc
  · injection h with h; subst h; exact preservesPresent_refl st
  · rcases hp : st.provider with _ | p <;> rw [hp] at h <;> simp at h
    rcases hm : PROVIDER_TO_DEFAULT_MODEL_NAME p with _ | m <;> rw [hm] at h <;>
      simp at h
    subst h
    exact ⟨fun _ h => h, fun _ h => h, fun v hv => by rw [hp] at hv; exact hv,
      fun _ h => h, fun v hv => absurd (by simp [hv]) hc, fun _ h => h,
      fun _ h => h, fun _ h => h, fun _ h => h, fun _ h => h, fun _ h => h⟩

theorem preserves_fillAuthValidated (st : AppState) :
    PreservesPresent st (fillAuthValidated st) := by
  unfold fillAuthValidated
  split_ifs with hc
  · exact preservesPresent_refl st
  · exact ⟨fun _ h => h, fun _ h => h, fun _ h => h, fun _ h => h,
      fun _ h => h, fun v hv => absurd (by simp [hv]) hc, fun _ h => h,
      fun _ h => h, fun _ h => h, fun _ h => h, fun _ h => h⟩

theorem preserves_fillResponses (st : AppState) :
    PreservesPresent st (fillResponses st) := by
  unfold fillResponses
  split_ifs with hc
  · exact preservesPresent_refl st
  · exact ⟨fun _ h => h, fun _ h => h, fun _ h => h, fun _ h => h,
      fun _ h => h, fun _ h => h, fun v hv => absurd (by simp [hv]) hc,
      fun _ h => h, fun _ h => h, fun _ h => h, fun _ h => h⟩

theorem preserves_fillTools (st : AppState) :
    PreservesPresent st (fillTools st) := by
  unfold fillTools
  split_ifs with hc
  · exact preservesPresent_refl st
  · exact ⟨fun _ h => h, fun _ h => h, fun _ h => h, fun _ h => h,
      fun _ h => h, fun _ h => h, fun _ h => h,
      fun v hv => absurd (by simp [hv]) hc, fun _ h => h, fun _ h => h,
      fun _ h => h⟩

theorem preserves_fillOnlyN (st : AppState) :
    PreservesPresent st (fillOnlyN st) := by
  unfold fillOnlyN
  split_ifs with hc
  · exact preservesPresent_refl st
  · exact ⟨fun _ h => h, fun _ h => h, fun _ h => h, fun _ h => h,
      fun _ h => h, fun _ h => h, fun _ h => h, fun _ h => h,
      fun v hv => absurd (by simp [hv]) hc, fun _ h => h, fun _ h => h⟩

theorem preserves_fillCustomPrompt (env : Env) (st : AppState) :
    PreservesPresent st (fillCustomPrompt env st) := by
  unfold fillCustomPrompt
  split_ifs with hc
  · exact preservesPresent_refl st
  · exact ⟨fun _ h => h, fun _ h => h, fun _ h => h, fun _ h => h,
      fun _ h => h, fun _ h => h, fun _ h => h, fun _ h => h, fun _ h => h,
      fun v hv => absurd (by simp [hv]) hc, fun _ h => h⟩

theorem preserves_fillHideImages (st : AppState) :
    PreservesPresent st (fillHideImages st) := by
  unfold fillHideImages
  split_ifs with hc
  · exact preservesPresent_refl st
  · exact ⟨fun _ h => h, fun _ h => h, fun _ h => h, fun _ h => h,
      fun _ h => h, fun _ h => h, fun _ h => h, fun _ h => h, fun _ h => h,
      fun _ h => h, fun v hv => absurd (by simp [hv]) hc⟩

theorem fillMessages_isSome (st : AppState) :
    (fillMessages st).messages.isSome := by
  unfold fillMessages
  split_ifs with hc
  · exact hc
  · rfl

theorem fillApiKey_isSome (env : Env) (st : AppState) :
    (fillApiKey env st).api_key.isSome := by
  unfold fillApiKey
  split_ifs with hc
  · exact hc
  · rfl

theorem fillProvider_isSome (env : Env) (st : AppState) :
    (fillProvider env st).provider.isSome := by
  unfold fillProvider
  split_ifs with hc
  · exact hc
  · rfl

theorem fillProviderRadio_isSome {st st' : AppState}
    (h : fillProviderRadio st = some st') : st'.provider_radio.isSome := by
  unfold fillProviderRadio at h
  split_ifs at h with hc
  · injection h with h; subst h; exact hc
  · rcases hp : st.provider with _ | p <;> rw [hp] at h <;> simp at h
    subst h; rfl

theorem fillModel_isSome {st st' : AppState}
    (h : fillModel st = some st') : st'.model.isSome := by
  unfold fillModel reset_model at h
  split_ifs at h with hc
  · injection h with h; subst h; exact hc
  · rcases hp : st.provider with _ | p <;> rw [hp] at h <;> simp at h
    rcases hm : PROVIDER_TO_DEFAULT_MODEL_NAME p with _ | m <;> rw [hm] at h <;>
      simp at h
    subst h; rfl

theorem fillAuthValidated_isSome (st : AppState) :
    (fillAuthValidated st).auth_validated.isSome := by
  unfold fillAuthValidated
  split_ifs with hc
  · exact hc
  · rfl

theorem fillResponses_isSome (st : AppState) :
    (fillResponses st).responses.isSome := by
  unfold fillResponses
  split_ifs with hc
  · exact hc
  · rfl

theorem fillTools_isSome (st : AppState) : (fillTools st).tools.isSome := by
  unfold fillTools
  split_ifs with hc
  · exact hc
  · rfl

theorem fillOnlyN_isSome (st : AppState) :
    (fillOnlyN st).only_n_most_recent_images.isSome := by
  unfold fillOnlyN
  split_ifs with hc
  · exact hc
  · rfl

theorem fillCustomPrompt_isSome (env : Env) (st : AppState) :
    (fillCustomPrompt env st).custom_system_prompt.isSome := by
  unfold fillCustomPrompt
  split_ifs with hc
  · exact hc
  · rfl

theorem fillHideImages_isSome (st : AppState) :
    (fillHideImages st).hide_images.isSome := by
  unfold fillHideImages
  split_ifs with hc
  · exact hc
  · rfl

theorem fillMessages_of_isSome (st : AppState) (h : st.messages.isSome) :
    fillMessages st = st := by
  unfold fillMessages; simp [h]

theorem fillApiKey_of_isSome (env : Env) (st : AppState)
    (h : st.api_key.isSome) : fillApiKey env st = st := by
  unfold fillApiKey; simp [h]

theorem fillProvider_of_isSome (env : Env) (st : AppState)
    (h : st.provider.isSome) : fillProvider env st = st := by
  unfold fillProvider; simp [h]

theorem fillProviderRadio_of_isSome (st : AppState)
    (h : st.provider_radio.isSome) : fillProviderRadio st = some st := by
  unfold fillProviderRadio; simp [h]

theorem fillModel_of_isSome (st : AppState) (h : st.model.isSome) :
    fillModel st = some st := by
  unfold fillModel; simp [h]

theorem fillAuthValidated_of_isSome (st : AppState)
    (h : st.auth_validated.isSome) : fillAuthValidated st = st := by
  unfold fillAuthValidated; simp [h]

theorem fillResponses_of_isSome (st : AppState) (h : st.responses.isSome) :
    fillResponses st = st := by
  unfold fillResponses; simp [h]

theorem fillTools_of_isSome (st : AppState) (h : st.tools.isSome) :
    fillTools st = st := by
  unfold fillTools; simp [h]

theorem fillOnlyN_of_isSome (st : AppState)
    (h : st.only_n_most_recent_images.isSome) : fillOnlyN st = st := by
  unfold fillOnlyN; simp [h]

theorem fillCustomPrompt_of_isSome (env : Env) (st : AppState)
    (h : st.custom_system_prompt.isSome) : fillCustomPrompt env st = st := by
  unfold fillCustomPrompt; simp [h]

theorem fillHideImages_of_isSome (st : AppState) (h : st.hide_images.isSome) :
    fillHideImages st = st := by
  unfold fillHideImages; simp [h]

/-- A state whose keys are all present passes through the bootstrap
    untouched: every guard is false. -/
theorem setup_state_of_allSet (env : Env) (st : AppState) (h : AllSet st) :
    setup_state env st = some st := by
  simp only [setup_state, fillMessages_of_isSome st h.messages,
    fillApiKey_of_isSome env st h.api_key,
    fillProvider_of_isSome env st h.provider,
    fillProviderRadio_of_isSome st h.provider_radio,
    fillModel_of_isSome st h.model,
    fillAuthValidated_of_isSome st h.auth_validated,
    fillResponses_of_isSome st h.responses,
    fillTools_of_isSome st h.tools,
    fillOnlyN_of_isSome st h.only_n_most_recent_images,
    fillCustomPrompt_of_isSome env st h.custom_system_prompt,
    fillHideImages_of_isSome st h.hide_images]

/-- The value the api-key fill leaves under the api_key key. -/
theorem fillApiKey_api_key (env : Env) (st : AppState) :
    (fillApiKey env st).api_key = some (st.api_key.getD (resolveApiKey env)) := by
  unfold fillApiKey
  split_ifs with hc
  · obtain ⟨v, hv⟩ := Option.isSome_iff_exists.mp hc
    rw [hv]; rfl
  · rw [Option.not_isSome_iff_eq_none.mp hc]; rfl

theorem fillMessages_api_key (st : AppState) :
    (fillMessages st).api_key = st.api_key := by
  unfold fillMessages; split_ifs <;> rfl

/-- A successful bootstrap leaves every key present, never resets a present
    key, and leaves under api_key either the key that was already present or
    the freshly resolved one. -/
theorem setup_state_props (env : Env) (st st' : AppState)
    (h : setup_state env st = some st') :
    AllSet st' ∧ PreservesPresent st st' ∧
      st'.api_key = some (st.api_key.getD (resolveApiKey env)) := by
  simp only [setup_state] at h
  rcases h2 : fillProviderRadio (fillProvider env (fillApiKey env (fillMessages st)))
    with _ | st2
  · rw [h2] at h; simp at h
  rw [h2] at h
  simp only [] at h
  rcases h3 : fillModel st2 with _ | st3
  · rw [h3] at h; simp at h
  rw [h3] at h
  simp only [Option.some.injEq] at h
  subst h
  have q12 : PreservesPresent (fillMessages st)
      (fillApiKey env (fillMessages st)) := preserves_fillApiKey env _
  have q23 : PreservesPresent (fillApiKey env (fillMessages st))
      (fillProvider env (fillApiKey env (fillMessages st))) :=
    preserves_fillProvider env _
  have q3r : PreservesPresent (fillProvider env (fillApiKey env (fillMessages st)))
      st2 := preserves_fillProviderRadio h2
  have qrm : PreservesPresent st2 st3 := preserves_fillModel h3
  have r4 : PreservesPresent (fillAuthValidated st3)
      (fillHideImages (fillCustomPrompt env (fillOnlyN (fillTools
        (fillResponses (fillAuthValidated st3)))))) :=
    preservesPresent_trans (preserves_fillResponses _)
      (preservesPresent_trans (preserves_fillTools _)
        (preservesPresent_trans (preserves_fillOnlyN _)
          (preservesPresent_trans (preserves_fillCustomPrompt env _)
            (preserves_fillHideImages _))))
  have t3 : PreservesPresent st3
      (fillHideImages (fillCustomPrompt env (fillOnlyN (fillTools
        (fillResponses (fillAuthValidated st3)))))) :=
    preservesPresent_trans (preserves_fillAuthValidated st3) r4
  have t2 : PreservesPresent st2 _ := preservesPresent_trans qrm t3
  have tA3 : PreservesPresent
      (fillProvider env (fillApiKey env (fillMessages st))) _ :=
    preservesPresent_trans q3r t2
  have tA2 : PreservesPresent (fillApiKey env (fillMessages st)) _ :=
    preservesPresent_trans q23 tA3
  have tA1 : PreservesPresent (fillMessages st) _ :=
    preservesPresent_trans q12 tA2
  have r5 : PreservesPresent (fillResponses (fillAuthValidated st3)) _ :=
    preservesPresent_trans (preserves_fillTools _)
      (preservesPresent_trans (preserves_fillOnlyN _)
        (preservesPresent_trans (preserves_fillCustomPrompt env _)
          (preserves_fillHideImages _)))
  have r6 : PreservesPresent (fillTools (fillResponses (fillAuthValidated st3))) _ :=
    preservesPresent_trans (preserves_fillOnlyN _)
      (preservesPresent_trans (preserves_fillCustomPrompt env _)
        (preserves_fillHideImages _))
  have r7 : PreservesPresent
      (fillOnlyN (fillTools (fillResponses (fillAuthValidated st3)))) _ :=
    preservesPresent_trans (preserves_fillCustomPrompt env _)
      (preserves_fillHideImages _)
  refine ⟨⟨?_, ?_, ?_, ?_, ?_, ?_, ?_, ?_, ?_, ?_, ?_⟩,
    preservesPresent_trans (preserves_fillMessages st) tA1, ?_⟩
  · exact isSome_mono_messages tA1 (fillMessages_isSome st)
  · exact isSome_mono_api_key tA2 (fillApiKey_isSome env _)
  · exact isSome_mono_provider tA3 (fillProvider_isSome env _)
  · exact isSome_mono_provider_radio t2 (fillProviderRadio_isSome h2)
  · exact isSome_mono_model t3 (fillModel_isSome h3)
  · exact isSome_mono_auth_validated r4 (fillAuthValidated_isSome st3)
  · exact isSome_mono_responses r5 (fillResponses_isSome _)
  · exact isSome_mono_tools r6 (fillTools_isSome _)
  · exact isSome_mono_only_n r7 (fillOnlyN_isSome _)
  · exact isSome_mono_custom_prompt (preserves_fillHideImages _)
      (fillCustomPrompt_isSome env _)
  · exact fillHideImages_isSome _
  · have hk : (fillApiKey env (fillMessages st)).api_key =
        some (st.api_key.getD (resolveApiKey env)) := by
      rw [fillApiKey_api_key env (fillMessages st), fillMessages_api_key st]
    exact tA2.api_key _ hk

/-!  Helper lemmas about storage, key resolution and the projection. -/

theorem load_from_storage_ne_empty {env : Env} {f s : String}
    (h : load_from_storage env f = some s) : s ≠ "" := by
  unfold load_from_storage at h
  split at h
  · cases h
  · split_ifs at h with hd
    injection h with h; subst h; exact hd

theorem resolveApiKey_ne_empty (env : Env) : resolveApiKey env ≠ "" := by
  unfold resolveApiKey
  split_ifs with hv
  · decide
  · exact hv

theorem resolveApiKey_eq_chain (env : Env) :
    resolveApiKey env = specResolutionChain (load_from_storage env "api_key")
      (truthyEnvVar env "ANTHROPIC_API_KEY") "YOUR_API_KEY_HERE" := by
  unfold resolveApiKey resolveApiKeyRaw specResolutionChain truthyEnvVar getenv
  rcases hs : load_from_storage env "api_key" with _ | s
  · rcases he : env.osenv "ANTHROPIC_API_KEY" with _ | w
    · simp [hs, he]
    · by_cases hw : w = "" <;> simp [hs, he, hw]
  · have hne := load_from_storage_ne_empty hs
    simp [hs, hne]

theorem renderMsg_none_of_raises (decode : String → Option String)
    (msg : Message) (h : raisesAccessError decode msg = true) :
    (renderMsg decode msg).1 = none := by
  obtain ⟨role, content⟩ := msg
  rcases content with _ | ⟨b, rest⟩
  · rfl
  rcases b with t | t | ⟨n, i⟩ | ⟨o, e, im⟩ | d | _ <;>
    try simp [raisesAccessError] at h
  rcases d with ⟨c⟩
  rcases c with _ | l
  · rfl
  rcases l with _ | ⟨item, items⟩
  · rfl
  rcases item with ⟨ty, src⟩
  rcases ty with _ | ty
  · rfl
  by_cases hty : ty = "image"
  · subst hty
    rcases src with _ | src
    · simp [renderMsg]
    rcases src with ⟨data⟩
    rcases data with _ | payload
    · simp [renderMsg]
    · have hd : decode payload = none := by
        simpa [raisesAccessError, Option.isNone_iff_eq_none] using h
      simp [renderMsg, hd]
  · simp [raisesAccessError, hty] at h

/-!  The claim theorems. -/

/-- Claim C1, counterexample: a turn whose first content block is a
    ToolResult object is matched by no isinstance branch of the render loop
    of process_input, so the projection yields no pair at all — not
    (None, 42) for an output and not (None, Error: boom) for an error. -/
theorem c1_counterexample :
    renderStore decodeNone [toolResultTurn42] = [] ∧
    renderStore decodeNone [toolResultTurnBoom] = [] ∧
    ([] : List Pair) ≠ [(none, some (.text "42"))] ∧
    ([] : List Pair) ≠ [(none, some (.text "Error: boom"))] := by
  decide

/-- Claim C1, amended: the Render Projector contributes no pair for a turn
    whose first block is a ToolResult object; the output and Error: renderings
    of a ToolResult live in the streaming callback, which yields the single
    renderable output when the output is truthy and otherwise the Error:
    prefix of a truthy error. -/
theorem c1_projector_vs_callback :
    ∀ (decode : String → Option String) (role : String) (o e i : Option String)
      (rest : List ContentBlock),
    (renderMsg decode { role := role, content := .toolResultObj o e i :: rest }).1
        = none ∧
    (∀ (hide : Bool) (out : String) (eo io : Option String), out ≠ "" →
      render_message hide (.toolResult (some out) eo io) = some (.text out)) ∧
    (∀ (hide : Bool) (err : String) (io : Option String), err ≠ "" →
      render_message hide (.toolResult none (some err) io) =
        some (.text ("Error: " ++ err))) := by
  intro decode role o e i rest
  refine ⟨rfl, ?_, ?_⟩
  · intro hide out eo io hout
    simp [render_message, CallbackMessage.truthy, isToolResult, hasattrError,
      hasattrOutput, strTruthy, hout]
  · intro hide err io herr
    simp [render_message, CallbackMessage.truthy, isToolResult, hasattrError,
      hasattrOutput, strTruthy, herr]

/-- Witness for the amended C1 at output 42 and error boom. -/
theorem c1_witness :
    (renderMsg decodeNone
      { role := "tool", content := [.toolResultObj (some "42") none none] }).1
        = none ∧
    render_message false (.toolResult (some "42") none none) =
      some (.text "42") ∧
    render_message false (.toolResult none (some "boom") none) =
      some (.text ("Error: " ++ "boom")) := by
  have h := c1_projector_vs_callback decodeNone "tool" (some "42") none none []
  exact ⟨h.1, h.2.1 false "42" none none (by decide),
    h.2.2 false "boom" none (by decide)⟩

/-- Claim C2, counterexample: with the hide-images toggle on, a turn holding
    an image-only tool-result dict still contributes a display pair and its
    payload is still decoded and persisted — the projection of process_input
    never reads the hide_images key. -/
theorem c2_counterexample :
    hiddenState.hide_images = some true ∧
    process_input_render decodeClock0 hiddenState =
      some [(none, some (.image "2024-01-01_00-00-01.png"))] ∧
    decodedPayloads decodeClock0 [imageDictTurn] = ["B64DATA"] := by
  decide

/-- Claim C2, amended: the store projection is independent of the
    hide_images key, so image tool results are decoded and rendered
    regardless of the toggle; only the streaming callback suppresses an
    image-only ToolResult under hide_images, returning no renderable and
    decoding nothing. -/
theorem c2_hide_images_scope :
    ∀ (decode : String → Option String) (st : AppState) (b : Option Bool)
      (img : Option String),
    process_input_render decode { st with hide_images := b } =
      process_input_render decode st ∧
    render_message true (.toolResult none none img) = none := by
  intro decode st b img
  constructor
  · rfl
  · rcases img with _ | i <;>
      simp [render_message, CallbackMessage.truthy, isToolResult,
        hasattrError, hasattrOutput, strTruthy]

/-- Claim C3, counterexample: a store of one turn (first block a ToolResult
    object) projects to zero pairs, not exactly one pair per turn. -/
theorem c3_counterexample :
    renderStore decodeNone [toolResultTurn42] = [] ∧
    (renderStore decodeNone [toolResultTurn42]).length ≠
      [toolResultTurn42].length := by
  decide

/-- Claim C3, amended: the projection yields at most one pair per turn and
    preserves store order (it distributes over concatenation of the store);
    turns whose first block matches no render branch contribute no pair. -/
theorem c3_at_most_one_pair :
    ∀ decode : String → Option String,
    (∀ msgs : List Message, (renderStore decode msgs).length ≤ msgs.length) ∧
    (∀ xs ys : List Message, renderStore decode (xs ++ ys) =
      renderStore decode xs ++ renderStore decode ys) := by
  intro decode
  constructor
  · intro msgs
    exact List.length_filterMap_le _ _
  · intro xs ys
    simp [renderStore]

/-- Claim C4, counterexample: appending a turn with an empty content
    sequence does not fail — the store is a plain list and append is
    unconditional — and the store length changes from 0 to 1. -/
theorem c4_counterexample :
    emptyContentTurn.content = [] ∧
    storeAppend [] emptyContentTurn = [emptyContentTurn] ∧
    (storeAppend ([] : List Message) emptyContentTurn).length = 1 ∧
    (1 : Nat) ≠ 0 := by
  decide

/-- Claim C4, amended: the append on the store never fails and always grows
    the store by exactly one turn, empty content included; no
    InvalidTurnError exists in the code. The user-input append of
    process_input always supplies exactly one TextBlock, so it never
    constructs an empty-content turn itself. -/
theorem c4_append_never_fails :
    ∀ (msgs : List Message) (turn : Message) (input : String),
    (storeAppend msgs turn).length = msgs.length + 1 ∧
    appendUserTurn input msgs = storeAppend msgs (userTurn input) ∧
    (userTurn input).content.length = 1 := by
  intro msgs turn input
  refine ⟨?_, rfl, rfl⟩
  simp [storeAppend]

/-- Claim C5: when evaluating a turn raises a structural-access error
    (empty content, missing dict key, or a decode failure), the per-message
    except catches it: the turn contributes no pair and the projection of
    the remaining turns is unchanged. -/
theorem c5_skip_and_continue :
    ∀ (decode : String → Option String) (msg : Message) (rest : List Message),
    raisesAccessError decode msg = true →
    (renderMsg decode msg).1 = none ∧
    renderStore decode (msg :: rest) = renderStore decode rest := by
  intro decode msg rest h
  have hn := renderMsg_none_of_raises decode msg h
  exact ⟨hn, by simp [renderStore, List.filterMap_cons, hn]⟩

/-- Witness for C5: a tool-result dict missing its source key is skipped
    while the rest of the store still renders. -/
theorem c5_witness :
    raisesAccessError decodeNone malformedImageTurn = true ∧
    (renderMsg decodeNone malformedImageTurn).1 = none ∧
    renderStore decodeNone (malformedImageTurn :: [userTurn "hi"]) =
      renderStore decodeNone [userTurn "hi"] := by
  refine ⟨by decide, ?_, ?_⟩
  · exact (c5_skip_and_continue decodeNone malformedImageTurn [userTurn "hi"]
      (by decide)).1
  · exact (c5_skip_and_continue decodeNone malformedImageTurn [userTurn "hi"]
      (by decide)).2

/-- Claim C6: a turn whose first block is a TextBlock — the type user turns
    carry, as the user-input append shows — renders on the left as
    (text, None), and one whose first block is a BetaTextBlock — the beta
    API type assistant text arrives as — renders on the right as
    (None, text). -/
theorem c6_text_sides :
    ∀ (decode : String → Option String) (role t : String)
      (rest : List ContentBlock),
    (renderMsg decode { role := role, content := .textBlock t :: rest }).1 =
      some (some (.text t), none) ∧
    (renderMsg decode { role := role, content := .betaTextBlock t :: rest }).1 =
      some (none, some (.text t)) ∧
    renderStore decode [userTurn t] = [(some (.text t), none)] := by
  intro decode role t rest
  exact ⟨rfl, rfl, rfl⟩

/-- Claim C7: the bootstrap is idempotent — a second setup_state on a state
    a successful setup_state produced changes nothing — and no key present
    before the call is ever reset or overwritten. -/
theorem c7_bootstrap_idempotent :
    ∀ (env : Env) (st st' : AppState), setup_state env st = some st' →
    setup_state env st' = some st' ∧ PreservesPresent st st' := by
  intro env st st' h
  obtain ⟨hall, hpres, _⟩ := setup_state_props env st st' h
  exact ⟨setup_state_of_allSet env st' hall, hpres⟩

/-- Witness for C7 on the fresh state under an empty world. -/
theorem c7_witness :
    setup_state env0 emptyState = some state0 ∧
    setup_state env0 state0 = some state0 ∧
    PreservesPresent emptyState state0 := by
  have h := c7_bootstrap_idempotent env0 emptyState state0 (by decide)
  exact ⟨by decide, h.1, h.2⟩

/-- Claim C8, counterexample: the provider field ignores persisted storage —
    with a stored provider value vertex and environment API_PROVIDER
    bedrock, bootstrap resolves the provider to bedrock, so the claimed
    storage-first chain does not apply to this field. -/
theorem c8_counterexample :
    load_from_storage envC8 "provider" = some "vertex" ∧
    (setup_state envC8 emptyState).bind AppState.provider = some "bedrock" ∧
    ("bedrock" : String) ≠ "vertex" := by
  decide

/-- Claim C8, amended: only the api_key field follows the full chain of
    storage, then environment, then placeholder; the provider resolution
    never reads storage, and the custom system prompt resolution never
    reads the environment (the remaining fields get hard-coded or derived
    defaults). -/
theorem c8_chain_only_api_key :
    ∀ (env : Env) (stg stg1 stg2 os os1 os2 : String → Option String)
      (st : AppState),
    resolveApiKey env = specResolutionChain (load_from_storage env "api_key")
      (truthyEnvVar env "ANTHROPIC_API_KEY") "YOUR_API_KEY_HERE" ∧
    fillProvider { storage := stg1, osenv := os } st =
      fillProvider { storage := stg2, osenv := os } st ∧
    fillCustomPrompt { storage := stg, osenv := os1 } st =
      fillCustomPrompt { storage := stg, osenv := os2 } st := by
  intro env stg stg1 stg2 os os1 os2 st
  exact ⟨resolveApiKey_eq_chain env, rfl, rfl⟩

/-- Claim C9: after a successful bootstrap the api_key key holds a
    non-empty string — the freshly resolved key when the key was absent
    (the placeholder when neither storage nor the environment supplies
    one), or the present non-empty key unchanged — so the missing-key
    guard of sampling_loop_wrapper is false. -/
theorem c9_api_key_nonempty :
    ∀ (env : Env) (st st' : AppState), setup_state env st = some st' →
    (st.api_key = none →
      st'.api_key = some (resolveApiKey env) ∧ resolveApiKey env ≠ "" ∧
      api_key_missing st' = false) ∧
    (∀ s, s ≠ "" → st.api_key = some s → api_key_missing st' = false) ∧
    (load_from_storage env "api_key" = none →
      env.osenv "ANTHROPIC_API_KEY" = none →
      resolveApiKey env = "YOUR_API_KEY_HERE") := by
  intro env st st' h
  obtain ⟨hall, hpres, hchar⟩ := setup_state_props env st st' h
  refine ⟨?_, ?_, ?_⟩
  · intro hn
    rw [hn] at hchar
    simp only [Option.getD_none] at hchar
    refine ⟨hchar, resolveApiKey_ne_empty env, ?_⟩
    unfold api_key_missing
    rw [hchar]
    simp [resolveApiKey_ne_empty env]
  · intro s hs hsome
    have hv := hpres.api_key s hsome
    unfold api_key_missing
    rw [hv]
    simp [hs]
  · intro h1 h2
    unfold resolveApiKey resolveApiKeyRaw getenv
    rw [h1, h2]
    rfl

/-- Witness for C9 on the fresh state under an empty world. -/
theorem c9_witness :
    emptyState.api_key = none ∧
    state0.api_key = some (resolveApiKey env0) ∧ resolveApiKey env0 ≠ "" ∧
    api_key_missing state0 = false := by
  exact ⟨rfl, (c9_api_key_nonempty env0 emptyState state0 (by decide)).1 rfl⟩

/-- Claim C10: decode_base64_image reads the clock twice — once to name the
    saved file and once, after the save, to build the returned name — so
    when the save crosses a second boundary the returned file name differs
    from the name the image was saved under. -/
theorem c10_mismatched_filename :
    decode_base64_image clock0 "B64DATA" =
      some { payload := "B64DATA", savedFile := "2024-01-01_00-00-00.png"
           , returned := "2024-01-01_00-00-01.png" } ∧
    ("2024-01-01_00-00-00.png" : String) ≠ "2024-01-01_00-00-01.png" := by
  decide

end ComputerUseDemo
